import Mathlib

set_option linter.unusedVariables false

/-!
Shallow embedding of the `solar-orionjs` SolarWinds Orion client
(`src/index.js`): a dynamically typed JavaScript value model, the three
helper functions (`_getFullAddress`, `_constructServerPostRequest`,
`_parseRequestResults`) and the seven client operations, followed by
theorems about the specified behaviour.
-/

namespace Orionjs

/-- A JavaScript value, as far as this client manipulates them:
`undefined`, `null`, booleans, numbers (the client only handles integral
numbers such as status codes and list lengths), strings, arrays and plain
objects (association lists of string keys). -/
inductive JSValue where
  | undefined
  | null
  | bool (b : Bool)
  | num (n : Int)
  | str (s : String)
  | arr (elems : List JSValue)
  | obj (fields : List (String × JSValue))
  deriving Repr, BEq

/-- JavaScript truthiness (`if (v)`): `undefined`, `null`, `false`, `0`
and `""` are falsy, everything else (including `[]` and `{}`) is truthy. -/
def truthy : JSValue → Bool
  | .undefined => false
  | .null => false
  | .bool b => b
  | .num n => n != 0
  | .str s => s != ""
  | .arr _ => true
  | .obj _ => true

/-- JavaScript loose comparison against `undefined` (`v != undefined` is
the negation): only `undefined` and `null` are `== undefined`. -/
def looseEqUndefined : JSValue → Bool
  | .undefined => true
  | .null => true
  | _ => false

/-- JS `ToNumber` on a string, restricted to optionally signed decimal
integer literals; an empty or all-whitespace string converts to `0`, and
any other non-literal string is NaN (`none`). -/
def parseDigits (cs : List Char) : Option Nat :=
  if cs.isEmpty then none
  else cs.foldl (fun acc c =>
    acc.bind (fun n => if c.isDigit then some (n * 10 + (c.toNat - 48)) else none))
    (some 0)

/-- String-to-number conversion used by loose equality (see `parseDigits`). -/
def strToNumber (s : String) : Option Int :=
  match s.trim.toList with
  | [] => some 0
  | '-' :: rest => (parseDigits rest).map (fun n => -(n : Int))
  | '+' :: rest => (parseDigits rest).map (fun n => (n : Int))
  | cs => (parseDigits cs).map (fun n => (n : Int))

mutual
/-- JS `ToString`; arrays stringify by joining their elements with `,`
(with `undefined`/`null` elements becoming empty), plain objects as
`[object Object]`. -/
def jsToString : JSValue → String
  | .undefined => "undefined"
  | .null => "null"
  | .bool b => if b then "true" else "false"
  | .num n => toString n
  | .str s => s
  | .arr elems => String.intercalate "," (jsToStringList elems)
  | .obj _ => "[object Object]"

/-- Stringify a list of array elements for `jsToString`. -/
def jsToStringList : List JSValue → List String
  | [] => []
  | v :: vs =>
    (match v with
     | .undefined => ""
     | .null => ""
     | v => jsToString v) :: jsToStringList vs
end

/-- JS loose equality `v == n` against a number literal: `undefined` and
`null` compare unequal to every number; booleans and strings convert via
`ToNumber`; arrays convert via `ToPrimitive` (their string form) then
`ToNumber`; plain objects stringify to `[object Object]`, which is NaN. -/
def looseEqNum : JSValue → Int → Bool
  | .undefined, _ => false
  | .null, _ => false
  | .bool b, n => (if b then (1 : Int) else 0) == n
  | .num m, n => m == n
  | .str s, n => (strToNumber s).elim false (· == n)
  | .arr elems, n => (strToNumber (jsToString (.arr elems))).elim false (· == n)
  | .obj _, _ => false

/-- JS property access `v[k]`: lookup on objects; `length` on arrays and
strings; `undefined` on everything else (accessing a property of a
primitive yields `undefined` rather than throwing, except on
`null`/`undefined`, which the source never dereferences unchecked). -/
def jsGet : JSValue → String → JSValue
  | .obj fields, k => (fields.lookup k).getD .undefined
  | .arr elems, k => if k == "length" then .num elems.length else .undefined
  | .str s, k => if k == "length" then .num s.length else .undefined
  | _, _ => .undefined

/-- Credential pair, `options.auth` in the source. -/
structure Auth where
  username : String
  password : String
  deriving Repr

/-- Client configuration: `{ server, port, auth }`. -/
structure Options where
  server : String
  port : Nat
  auth : Auth
  deriving Repr

/-- The module-level `defaultOptions` object (src/index.js lines 40-47). -/
def defaultOptions : Options :=
  { server := "127.0.0.1"
    port := 17778
    auth := { username := "admin", password := "" } }

/-- The configuration slot of a constructed client. Because the `Orion`
constructor stores either the caller's object or a reference to the shared
module-level `defaultOptions` object, the slot distinguishes the shared
default reference from a caller-provided configuration. -/
inductive ConfigRef where
  | moduleDefault
  | own (c : Options)
  deriving Repr

/-- `var Orion = function (options) { this.options = options !== undefined ?
options : defaultOptions }` (src/index.js lines 24-26): the comparison is
strict, so exactly the `undefined` argument (`none`) selects the shared
module-level default object. -/
def orionCtor (options : Option Options) : ConfigRef :=
  match options with
  | some o => .own o
  | none => .moduleDefault

/-- Dereference a configuration slot to the configuration value it holds. -/
def derefConfig : ConfigRef → Options
  | .moduleDefault => defaultOptions
  | .own c => c

/-- The five endpoint addresses returned by `_getFullAddress`. -/
structure Addresses where
  fa : String
  q : String
  c : String
  i : String
  bd : String
  deriving Repr

/-- `_getFullAddress` (src/index.js lines 190-199): the base URL plus the
operation-specific suffixes. -/
def _getFullAddress (options : Options) : Addresses :=
  let fa := "https://" ++ options.server ++ ":" ++ toString options.port ++
    "/SolarWinds/InformationService/v3/Json/"
  { fa := fa
    q := fa ++ "Query"
    c := fa ++ "Create/"
    i := fa ++ "Invoke/"
    bd := fa ++ "BulkDelete" }

/-- The HTTP request options built by `_constructServerPostRequest`. -/
structure ReqOptions where
  json : JSValue
  auth : Auth
  rejectUnauthorized : Bool
  deriving Repr

/-- `_constructServerPostRequest` (src/index.js lines 181-188). -/
def _constructServerPostRequest (options : Options) (json : JSValue) : ReqOptions :=
  { json := json
    auth := options.auth
    rejectUnauthorized := false }

/-- HTTP method of an outbound request (`request.post` / `request.get` /
`request.del`). -/
inductive Method where
  | post
  | get
  | del
  deriving Repr

/-- An outbound HTTP request as handed to the `request` library. -/
structure HttpRequest where
  method : Method
  url : String
  options : ReqOptions
  deriving Repr

/-- A synchronously raised JavaScript error. The file is in strict mode
(`'use strict'`), so evaluating an undeclared identifier raises
`ReferenceError`. -/
inductive JsError where
  | referenceError (name : String)
  deriving Repr

/-- `query` (src/index.js lines 68-72): `POST <base>Query` with the query
descriptor as JSON payload. -/
def query (options : Options) (q : JSValue) : Except JsError HttpRequest :=
  .ok { method := .post
        url := (_getFullAddress options).q
        options := _constructServerPostRequest options q }

/-- `update` (src/index.js lines 86-90): `POST <base><swisUri>` with the
patch object as payload. -/
def update (options : Options) (upd : JSValue) (swisUri : String) :
    Except JsError HttpRequest :=
  .ok { method := .post
        url := (_getFullAddress options).fa ++ swisUri
        options := _constructServerPostRequest options upd }

/-- `read` (src/index.js lines 102-106): `GET <base><swisUri>` with an
empty object payload. -/
def read (options : Options) (swisUri : String) : Except JsError HttpRequest :=
  .ok { method := .get
        url := (_getFullAddress options).fa ++ swisUri
        options := _constructServerPostRequest options (.obj []) }

/-- `create` (src/index.js lines 114-118): the source computes the target
URL as `_gfa(this.options).c + orionObject`, but `orionObject` is an
undeclared identifier (the parameter is named `object`), so under strict
mode evaluating it raises `ReferenceError: orionObject is not defined`
before `request.post` is reached; no request is ever issued. -/
def create (options : Options) (data : JSValue) (object : String) :
    Except JsError HttpRequest :=
  .error (.referenceError "orionObject")

/-- `invoke` (src/index.js lines 135-139): `POST <base>Invoke/<verb>` with
the argument array as payload. -/
def invoke (options : Options) (verb : String) (data : JSValue) :
    Except JsError HttpRequest :=
  .ok { method := .post
        url := (_getFullAddress options).i ++ verb
        options := _constructServerPostRequest options data }

/-- `remove` (src/index.js lines 146-150): `DELETE <base><swisUri>` with an
empty object payload. -/
def remove (options : Options) (swisUri : String) : Except JsError HttpRequest :=
  .ok { method := .del
        url := (_getFullAddress options).fa ++ swisUri
        options := _constructServerPostRequest options (.obj []) }

/-- `removeBulk` (src/index.js lines 157-161): `POST <base>BulkDelete` with
payload `{ uris: swisUris }`. -/
def removeBulk (options : Options) (swisUris : List String) :
    Except JsError HttpRequest :=
  .ok { method := .post
        url := (_getFullAddress options).bd
        options := _constructServerPostRequest options
          (.obj [("uris", .arr (swisUris.map .str))]) }

/-- The `status` field of a Result Envelope. -/
structure JSStatus where
  code : JSValue
  message : JSValue
  deriving Repr

/-- The Result Envelope passed to the caller's callback. -/
structure Envelope where
  err : JSValue
  results : JSValue
  status : JSStatus
  deriving Repr

/-- `res = res != undefined ? res : {}` (src/index.js line 205): a missing
(or `null`, by loose equality) response object is replaced by an empty
object. -/
def normRes (res : JSValue) : JSValue :=
  if looseEqUndefined res then .obj [] else res

/-- `_parseRequestResults` (src/index.js lines 203-237): normalize a raw
`(err, res, body)` outcome of the `request` library into a Result
Envelope. -/
def _parseRequestResults (err res body : JSValue) : Envelope :=
  if !(truthy err) && looseEqNum (jsGet (normRes res) "statusCode") 200 then
    { err := .undefined
      results :=
        if !(looseEqUndefined body) && truthy (jsGet body "results") then
          if looseEqNum (jsGet (jsGet body "results") "length") 0 then
            JSValue.null
          else
            jsGet body "results"
        else if !(looseEqUndefined body) then
          body
        else
          JSValue.undefined
      status := { code := jsGet (normRes res) "statusCode"
                  message := jsGet (normRes res) "statusMessage" } }
  else
    { err := if !(looseEqUndefined err) then err else body
      results := .undefined
      status := { code := jsGet (normRes res) "statusCode"
                  message := jsGet (normRes res) "statusMessage" } }

/-! Helper lemmas shared by the theorems below. -/

/-- A value with a numeric property is neither `undefined` nor `null`. -/
theorem looseEqUndefined_of_jsGet_num (v : JSValue) (k : String) (n : Int)
    (h : jsGet v k = JSValue.num n) : looseEqUndefined v = false := by
  cases v <;> simp_all [jsGet, looseEqUndefined]

/-- A value with an array-valued property is neither `undefined` nor `null`. -/
theorem looseEqUndefined_of_jsGet_arr (v : JSValue) (k : String) (elems : List JSValue)
    (h : jsGet v k = JSValue.arr elems) : looseEqUndefined v = false := by
  cases v <;> simp_all [jsGet, looseEqUndefined]

/-! Theorems for the claims. -/

/-- C1: the claim states that `create` issues `POST <base>/Create/<objectName>`
with the data object as JSON payload; in the code, evaluating the
undeclared identifier `orionObject` raises a `ReferenceError` before any
request is issued, for every configuration, data object and object name. -/
theorem create_raises_referenceError (opts : Options) (data : JSValue)
    (object : String) :
    create opts data object = Except.error (JsError.referenceError "orionObject") :=
  rfl

/-- C2: the claim states that no operation raises synchronously; the six
operations `query`, `update`, `read`, `invoke`, `remove` and `removeBulk`
indeed always hand a request to the transport without raising, but
`create` raises a `ReferenceError` synchronously at every input, shown
here at a concrete one. -/
theorem operations_sync_behaviour :
    (∀ (o : Options) (q : JSValue), ∃ r, query o q = Except.ok r) ∧
    (∀ (o : Options) (u : JSValue) (s : String), ∃ r, update o u s = Except.ok r) ∧
    (∀ (o : Options) (s : String), ∃ r, read o s = Except.ok r) ∧
    (∀ (o : Options) (v : String) (d : JSValue), ∃ r, invoke o v d = Except.ok r) ∧
    (∀ (o : Options) (s : String), ∃ r, remove o s = Except.ok r) ∧
    (∀ (o : Options) (u : List String), ∃ r, removeBulk o u = Except.ok r) ∧
    create defaultOptions (JSValue.obj [("NodeName", JSValue.str "n")]) "Orion.Nodes" =
      Except.error (JsError.referenceError "orionObject") := by
  refine ⟨?_, ?_, ?_, ?_, ?_, ?_, rfl⟩ <;> intros <;> exact ⟨_, rfl⟩

/-- C3: for every configuration, `_getFullAddress` produces the base URL
`https://<server>:<port>/SolarWinds/InformationService/v3/Json/` (used
without suffix by read/update/remove) and the four suffixed URLs `Query`
(query), `Create/` (create), `Invoke/` (invoke) and `BulkDelete`
(bulkDelete). -/
theorem getFullAddress_urls (C : Options) :
    (_getFullAddress C).fa =
      "https://" ++ C.server ++ ":" ++ toString C.port ++
        "/SolarWinds/InformationService/v3/Json/" ∧
    (_getFullAddress C).q = (_getFullAddress C).fa ++ "Query" ∧
    (_getFullAddress C).c = (_getFullAddress C).fa ++ "Create/" ∧
    (_getFullAddress C).i = (_getFullAddress C).fa ++ "Invoke/" ∧
    (_getFullAddress C).bd = (_getFullAddress C).fa ++ "BulkDelete" :=
  ⟨rfl, rfl, rfl, rfl, rfl⟩

/-- C4: for every configuration and payload, `_constructServerPostRequest`
returns exactly `json = P`, `auth = C.auth` and TLS certificate
verification disabled, with no dependence on the operation. -/
theorem constructServerPostRequest_exact (C : Options) (P : JSValue) :
    _constructServerPostRequest C P =
      { json := P, auth := C.auth, rejectUnauthorized := false } :=
  rfl

/-- C5: for every input triple, the envelope has at most one of `err` and
`results` defined: on the success path `err` is `undefined`, and on the
failure path `results` is `undefined`. -/
theorem envelope_err_results_exclusive (err res body : JSValue) :
    (_parseRequestResults err res body).err = JSValue.undefined ∨
    (_parseRequestResults err res body).results = JSValue.undefined := by
  by_cases h : (!truthy err && looseEqNum (jsGet (normRes res) "statusCode") 200) = true
  · exact Or.inl (by simp [_parseRequestResults, h])
  · exact Or.inr (by simp [_parseRequestResults, h])

/-- C6: on the success path (no transport error, status code 200), a body
whose `results` field is a list normalizes to `results = null` when the
list is empty and to the list itself otherwise, with `err = undefined` and
`status` taken from the response. -/
theorem parse_success_results_list (res body : JSValue) (elems : List JSValue)
    (hres : jsGet res "statusCode" = JSValue.num 200)
    (hbody : jsGet body "results" = JSValue.arr elems) :
    _parseRequestResults JSValue.undefined res body =
      { err := JSValue.undefined
        results := if elems.isEmpty then JSValue.null else JSValue.arr elems
        status := { code := JSValue.num 200, message := jsGet res "statusMessage" } } := by
  have hr : looseEqUndefined res = false := looseEqUndefined_of_jsGet_num res _ _ hres
  have hb : looseEqUndefined body = false := looseEqUndefined_of_jsGet_arr body _ _ hbody
  have hnr : normRes res = res := by simp [normRes, hr]
  cases elems with
  | nil =>
    simp only [_parseRequestResults, hnr, hres, hbody, hb]
    simp [truthy, looseEqNum, jsGet]
  | cons x xs =>
    simp only [_parseRequestResults, hnr, hres, hbody, hb]
    simp [truthy, looseEqNum, jsGet]
    omega

/-- Witness for C6 at the spec's own example: status 200/OK with
`body = {results: []}` yields `{err: undefined, results: null,
status: {code: 200, message: "OK"}}`. -/
theorem parse_success_results_list_witness :
    _parseRequestResults JSValue.undefined
      (JSValue.obj [("statusCode", JSValue.num 200), ("statusMessage", JSValue.str "OK")])
      (JSValue.obj [("results", JSValue.arr [])]) =
      { err := JSValue.undefined
        results := JSValue.null
        status := { code := JSValue.num 200, message := JSValue.str "OK" } } :=
  parse_success_results_list
    (JSValue.obj [("statusCode", JSValue.num 200), ("statusMessage", JSValue.str "OK")])
    (JSValue.obj [("results", JSValue.arr [])]) [] rfl rfl

/-- C7 counterexample: a transport error that is present (it is neither
`undefined` nor `null`: the boolean `false`) together with status code
200. The claim as stated then requires `err` = the transport error and
`results = undefined`, but the normalizer takes the success path (its
branch tests the error's truthiness, not its presence) and produces
`err = undefined` with `results` = the body. -/
theorem parse_failure_claim_counterexample :
    looseEqUndefined (JSValue.bool false) = false ∧
    (_parseRequestResults (JSValue.bool false)
      (JSValue.obj [("statusCode", JSValue.num 200), ("statusMessage", JSValue.str "OK")])
      (JSValue.obj [("x", JSValue.num 1)])).err = JSValue.undefined ∧
    (_parseRequestResults (JSValue.bool false)
      (JSValue.obj [("statusCode", JSValue.num 200), ("statusMessage", JSValue.str "OK")])
      (JSValue.obj [("x", JSValue.num 1)])).results =
      JSValue.obj [("x", JSValue.num 1)] :=
  ⟨rfl, rfl, rfl⟩

/-- C7 (amended): for every input triple where the transport error is
truthy or the status code is not 200, the envelope's `err` is the
transport error when that error is not loosely undefined (not `undefined`
or `null`) and otherwise the raw body, and `results` is `undefined`. -/
theorem parse_failure_path (err res body : JSValue)
    (h : truthy err = true ∨
      looseEqNum (jsGet (normRes res) "statusCode") 200 = false) :
    _parseRequestResults err res body =
      { err := if looseEqUndefined err then body else err
        results := JSValue.undefined
        status := { code := jsGet (normRes res) "statusCode"
                    message := jsGet (normRes res) "statusMessage" } } := by
  have hcond : (!truthy err && looseEqNum (jsGet (normRes res) "statusCode") 200) = false := by
    rcases h with h | h <;> simp [h]
  simp only [_parseRequestResults, hcond, Bool.false_eq_true, if_false]
  cases he : looseEqUndefined err <;> simp

/-- Witness for C7's amended theorem at the spec's own example: status 500
with body `"boom"` and no transport error yields `{err: "boom",
results: undefined, status: {code: 500, message: "Internal Server
Error"}}`. -/
theorem parse_failure_path_witness :
    (truthy JSValue.undefined = true ∨
      looseEqNum (jsGet (normRes (JSValue.obj
        [("statusCode", JSValue.num 500),
         ("statusMessage", JSValue.str "Internal Server Error")])) "statusCode") 200 = false) ∧
    _parseRequestResults JSValue.undefined
      (JSValue.obj [("statusCode", JSValue.num 500),
                    ("statusMessage", JSValue.str "Internal Server Error")])
      (JSValue.str "boom") =
      { err := JSValue.str "boom"
        results := JSValue.undefined
        status := { code := JSValue.num 500
                    message := JSValue.str "Internal Server Error" } } :=
  ⟨Or.inr rfl,
    parse_failure_path JSValue.undefined
      (JSValue.obj [("statusCode", JSValue.num 500),
                    ("statusMessage", JSValue.str "Internal Server Error")])
      (JSValue.str "boom") (Or.inr rfl)⟩

/-- C8: for every transport error that is actually present (not loosely
undefined) and no response object at all, the envelope carries the
transport error as `err`, `results = undefined`, and a status whose code
and message are both `undefined`. -/
theorem parse_no_response (err body : JSValue)
    (h : looseEqUndefined err = false) :
    _parseRequestResults err JSValue.undefined body =
      { err := err
        results := JSValue.undefined
        status := { code := JSValue.undefined, message := JSValue.undefined } } := by
  simp only [_parseRequestResults, normRes, h]
  simp [looseEqUndefined, jsGet, looseEqNum]

/-- Witness for C8 at the spec's own example: `res = undefined`,
`err = "ECONNREFUSED"` yields `{err: "ECONNREFUSED", results: undefined,
status: {code: undefined, message: undefined}}`. -/
theorem parse_no_response_witness :
    looseEqUndefined (JSValue.str "ECONNREFUSED") = false ∧
    _parseRequestResults (JSValue.str "ECONNREFUSED") JSValue.undefined JSValue.undefined =
      { err := JSValue.str "ECONNREFUSED"
        results := JSValue.undefined
        status := { code := JSValue.undefined, message := JSValue.undefined } } :=
  ⟨rfl, parse_no_response (JSValue.str "ECONNREFUSED") JSValue.undefined rfl⟩

/-- C9: a client constructed with no options argument holds the shared
module-level default configuration reference — so any two such clients
hold the same configuration object — and that default is
`{server: "127.0.0.1", port: 17778, auth: {username: "admin",
password: ""}}`. -/
theorem default_configuration_shared :
    orionCtor none = ConfigRef.moduleDefault ∧
    derefConfig ConfigRef.moduleDefault = defaultOptions ∧
    defaultOptions =
      { server := "127.0.0.1"
        port := 17778
        auth := { username := "admin", password := "" } } :=
  ⟨rfl, rfl, rfl⟩

/-- C10: on the success path, a defined body whose `results` field is
falsy (for example `null`, `0` or `""` — the empty list is truthy, hence
excluded) is passed through whole: `results` = the entire body, because
the branch tests `body.results` for truthiness, not for existence. -/
theorem parse_success_falsy_results_field (res body : JSValue)
    (hres : jsGet res "statusCode" = JSValue.num 200)
    (hb : looseEqUndefined body = false)
    (hfalsy : truthy (jsGet body "results") = false) :
    _parseRequestResults JSValue.undefined res body =
      { err := JSValue.undefined
        results := body
        status := { code := JSValue.num 200, message := jsGet res "statusMessage" } } := by
  have hr : looseEqUndefined res = false := looseEqUndefined_of_jsGet_num res _ _ hres
  have hnr : normRes res = res := by simp [normRes, hr]
  simp only [_parseRequestResults, hnr, hres, hfalsy, hb]
  simp [truthy, looseEqNum]

/-- Witness for C10: status 200 with `body = {results: null}` yields
`results` = the whole body `{results: null}` rather than `null`-as-empty
or the field's value. -/
theorem parse_success_falsy_results_field_witness :
    jsGet (JSValue.obj [("statusCode", JSValue.num 200)]) "statusCode" = JSValue.num 200 ∧
    looseEqUndefined (JSValue.obj [("results", JSValue.null)]) = false ∧
    truthy (jsGet (JSValue.obj [("results", JSValue.null)]) "results") = false ∧
    _parseRequestResults JSValue.undefined
      (JSValue.obj [("statusCode", JSValue.num 200)])
      (JSValue.obj [("results", JSValue.null)]) =
      { err := JSValue.undefined
        results := JSValue.obj [("results", JSValue.null)]
        status := { code := JSValue.num 200, message := JSValue.undefined } } :=
  ⟨rfl, rfl, rfl,
    parse_success_falsy_results_field
      (JSValue.obj [("statusCode", JSValue.num 200)])
      (JSValue.obj [("results", JSValue.null)]) rfl rfl rfl⟩

end Orionjs
